import Mathlib

/-!
Verification of the go-vercel mutual-fund NAV proxy.

This file shallowly embeds the two HTTP handlers of the repository:
the data endpoint (`Handler` and its helpers in the `mutualfunds`
package) and the scheduled stub endpoint (`Cron` in the `handler`
package), and proves the specification claims about them.

Modelling conventions:
- Go `time.Time` values are embedded as natural numbers through a
  strictly monotone encoding of instants: midnight UTC of the calendar
  date (d, m, y) maps to `(y*10000 + m*100 + d) * 86400`.  Go's zero
  `time.Time` is midnight of 1 January of year 1, hence `zeroTime`.
  `t.After s`, `t.Before s`, `t.Equal s` become `>`, `<`, `=` on the
  encoding, and `t.IsZero` becomes `t = zeroTime`.  The current time
  `now` is an arbitrary natural number in the same scale.
- Query parameters mirror Go's `url.Values.Get`, which returns the
  empty string for an absent parameter, so an absent parameter is
  modelled as `""`.
- The upstream fetch is a parameter of type `Except String Fund`:
  `Except.error msg` models a transport or decode failure whose
  wrapped message is `msg`, `Except.ok fund` a successful fetch.
- JSON serialization is modelled byte-for-byte after Go's
  `encoding/json` with default HTML escaping; `json.NewEncoder.Encode`
  and `http.Error` append a trailing newline, `json.Marshal` does not,
  and a nil slice marshals as `null`.
-/

/-- Metadata of a fund, mirroring the anonymous `Meta` struct of the Go
`Fund`, `Response` types (fields in declaration order). -/
structure FundMeta where
  FundHouse : String
  SchemeType : String
  SchemeCategory : String
  SchemeCode : Int
  SchemeName : String
deriving DecidableEq, Repr

/-- One upstream NAV entry, mirroring the anonymous element struct of
`Fund.Data` (`date` and `nav` JSON fields, both strings). -/
structure NavItem where
  Date : String
  Nav : String
deriving DecidableEq, Repr

/-- `DataPoint` struct of the Go source (same shape as `NavItem`, a
distinct named type used for the outgoing response). -/
structure DataPoint where
  Date : String
  Nav : String
deriving DecidableEq, Repr

/-- The decoded upstream response, mirroring the Go `Fund` struct. -/
structure Fund where
  Meta : FundMeta
  Data : List NavItem
deriving DecidableEq, Repr

/-- The outgoing `Response` struct; `Period` carries the Go zero value
`""` when unset, and its JSON tag is `period,omitempty`. -/
structure Response where
  Meta : FundMeta
  Period : String
  Data : List DataPoint
deriving DecidableEq, Repr

/-- The Go zero value of the metadata struct, which the handler compares
against to detect an unknown fund id. -/
def emptyMeta : FundMeta := ⟨"", "", "", 0, ""⟩

/-- The calendar key of a date: `y*10000 + m*100 + d`, strictly monotone
in calendar order for valid dates. -/
def dateKey (d m y : Nat) : Nat := y * 10000 + m * 100 + d

/-- Midnight UTC of the calendar date (d, m, y) as an instant. -/
def mkTime (d m y : Nat) : Nat := dateKey d m y * 86400

/-- Go's zero `time.Time`: midnight UTC, 1 January, year 1.  `IsZero`
on a midnight instant is equality with this value. -/
def zeroTime : Nat := mkTime 1 1 1

/-- Leap year in the proleptic Gregorian calendar, as Go's
`time.isLeap`. -/
def leapYear (y : Nat) : Bool := y % 4 = 0 && (y % 100 ≠ 0 || y % 400 = 0)

/-- Days in a month, as Go's `time.daysIn`. -/
def daysIn (m y : Nat) : Nat :=
  if m = 2 then (if leapYear y then 29 else 28)
  else if m = 4 ∨ m = 6 ∨ m = 9 ∨ m = 11 then 30
  else 31

/-- Decimal digit test, as Go's `time.isDigit` (`'0' ≤ c ∧ c ≤ '9'`). -/
def isDigitChar (c : Char) : Bool := 48 ≤ c.toNat && c.toNat ≤ 57

/-- Numeric value of a decimal digit character. -/
def digitVal (c : Char) : Nat := c.toNat - 48

/-- Go's `time.Parse("02-01-2006", ·)` on the character list of the
input: exactly two digits, dash, two digits, dash, four digits, with
month in 1..12 and day in 1..daysIn (Go rejects out-of-range months and
days).  The result is midnight UTC of the parsed date. -/
def parseDateChars : List Char → Option Nat
  | [d1, d2, s1, m1, m2, s2, y1, y2, y3, y4] =>
    if s1 = '-' ∧ s2 = '-' ∧ isDigitChar d1 ∧ isDigitChar d2 ∧ isDigitChar m1 ∧
        isDigitChar m2 ∧ isDigitChar y1 ∧ isDigitChar y2 ∧ isDigitChar y3 ∧ isDigitChar y4 then
      if 1 ≤ 10 * digitVal m1 + digitVal m2 ∧ 10 * digitVal m1 + digitVal m2 ≤ 12 ∧
          1 ≤ 10 * digitVal d1 + digitVal d2 ∧
          10 * digitVal d1 + digitVal d2 ≤
            daysIn (10 * digitVal m1 + digitVal m2)
              (1000 * digitVal y1 + 100 * digitVal y2 + 10 * digitVal y3 + digitVal y4) then
        some (mkTime (10 * digitVal d1 + digitVal d2) (10 * digitVal m1 + digitVal m2)
          (1000 * digitVal y1 + 100 * digitVal y2 + 10 * digitVal y3 + digitVal y4))
      else none
    else none
  | _ => none

/-- Go's `time.Parse("02-01-2006", s)`, `none` on any parse error. -/
def parseTime (s : String) : Option Nat := parseDateChars s.data

/-- Decimal digit character for a value in 0..9 (Go's zero-padded
numeric formatting emits these). -/
def digitChar (n : Nat) : Char := Char.ofNat (48 + n)

/-- Two-digit zero-padded decimal rendering (layout elements `02`,
`01`). -/
def pad2 (n : Nat) : List Char := [digitChar (n / 10), digitChar (n % 10)]

/-- Four-digit zero-padded decimal rendering (layout element `2006`,
for years below 10000). -/
def pad4 (n : Nat) : List Char :=
  [digitChar (n / 1000), digitChar (n / 100 % 10), digitChar (n / 10 % 10), digitChar (n % 10)]

/-- Go's `t.Format("02-01-2006")` on a midnight instant. -/
def formatTime (t : Nat) : String :=
  let key := t / 86400
  String.mk (pad2 (key % 100) ++ '-' :: pad2 (key / 100 % 100) ++ '-' :: pad4 (key / 10000))

/-- `parseDates` of the Go source: parse both bounds, with a distinct
error message for each. -/
def parseDates (startDate endDate : String) : Except String (Nat × Nat) :=
  match parseTime startDate with
  | none => Except.error "invalid start date format. use dd-mm-yyyy"
  | some s =>
    match parseTime endDate with
    | none => Except.error "invalid end date format. use dd-mm-yyyy"
    | some e => Except.ok (s, e)

/-- `validateAndParseDates` of the Go source.  `now` stands for
`time.Now()`. -/
def validateAndParseDates (now : Nat) (startDate endDate : String) :
    Except String (Nat × Nat) :=
  if startDate ≠ "" ∧ endDate ≠ "" then
    match parseDates startDate endDate with
    | Except.error e => Except.error e
    | Except.ok (s, e) =>
      if e > now then Except.error "end date cannot be in the future"
      else if s > e then Except.error "start date cannot be after end date"
      else Except.ok (s, e)
  else if startDate = "" ∧ endDate = "" then Except.ok (zeroTime, zeroTime)
  else Except.error "both start and end dates are required in the format dd-mm-yyyy"

/-- Value of a nonempty all-digit character list, most significant
first (as `strconv`'s accumulation). -/
def digitsToNat (cs : List Char) : Nat := cs.foldl (fun n c => 10 * n + digitVal c) 0

/-- `isValidInteger` of the Go source: `strconv.Atoi` succeeds, i.e. an
optional sign followed by at least one digit, with the value in the
64-bit `int` range. -/
def isValidInteger (value : String) : Bool :=
  match value.data with
  | '-' :: rest => rest ≠ [] && rest.all isDigitChar && digitsToNat rest ≤ 2 ^ 63
  | '+' :: rest => rest ≠ [] && rest.all isDigitChar && digitsToNat rest ≤ 2 ^ 63 - 1
  | cs => cs ≠ [] && cs.all isDigitChar && digitsToNat cs ≤ 2 ^ 63 - 1

/-- The element-wise copy `DataPoint{Date: item.Date, Nav: item.Nav}`
performed by `filterData`. -/
def navToPoint (it : NavItem) : DataPoint := ⟨it.Date, it.Nav⟩

/-- `filterData` of the Go source: parse each point's date (skipping
the point on error), then keep it when either both bounds are the zero
time or the date lies in the inclusive range; appends preserve upstream
order. -/
def filterData (data : List NavItem) (startT endT : Nat) : List DataPoint :=
  data.filterMap fun item =>
    match parseTime item.Date with
    | none => none
    | some date =>
      if (startT = zeroTime ∧ endT = zeroTime) ∨
          ((date = startT ∨ date > startT) ∧ (date = endT ∨ date < endT)) then
        some (navToPoint item)
      else none

/-- `createSuccessResponse` of the Go source: the period string is set
only when neither bound is the zero time. -/
def createSuccessResponse (meta : FundMeta) (data : List DataPoint) (startT endT : Nat) :
    Response :=
  { Meta := meta
    Period :=
      if startT ≠ zeroTime ∧ endT ≠ zeroTime then
        formatTime startT ++ " to " ++ formatTime endT
      else ""
    Data := data }

/-- Outcome of the data endpoint before serialization: an error status
with its message, or the assembled success `Response`. -/
inductive HandlerResult where
  | error (status : Nat) (message : String)
  | success (resp : Response)
deriving DecidableEq, Repr

/-- The query parameters of an inbound request to the data endpoint.
`url.Values.Get` yields `""` for an absent parameter. -/
structure Request where
  mutualFundID : String
  startDate : String
  endDate : String
deriving DecidableEq, Repr

/-- `Handler` of the Go source: id checks, date validation, fetch,
empty-metadata sentinel check, filter, response assembly, in that
order. -/
def Handler (req : Request) (fetchResult : Except String Fund) (now : Nat) : HandlerResult :=
  if req.mutualFundID = "" then
    HandlerResult.error 400 "mutualFundID query parameter is required"
  else if isValidInteger req.mutualFundID = false then
    HandlerResult.error 400 "mutualFundID must be an integer"
  else
    match validateAndParseDates now req.startDate req.endDate with
    | Except.error e => HandlerResult.error 400 e
    | Except.ok (startT, endT) =>
      match fetchResult with
      | Except.error e => HandlerResult.error 500 e
      | Except.ok fund =>
        if fund.Meta = emptyMeta then HandlerResult.error 400 "Invalid mutualFundID"
        else
          HandlerResult.success
            (createSuccessResponse fund.Meta (filterData fund.Data startT endT) startT endT)

/-- Escaping of one character by Go's `encoding/json` string encoder
with default HTML escaping: quote, backslash, the three HTML-relevant
ASCII characters, control characters, and U+2028/U+2029 are escaped,
everything else is emitted verbatim. -/
def escapeChar (c : Char) : String :=
  if c = '"' then "\\\""
  else if c = '\\' then "\\\\"
  else if c = '\n' then "\\n"
  else if c = '\r' then "\\r"
  else if c = '\t' then "\\t"
  else if c = '<' then "\\u003c"
  else if c = '>' then "\\u003e"
  else if c = '&' then "\\u0026"
  else if c.toNat < 32 then
    String.mk ['\\', 'u', '0', '0', Nat.digitChar (c.toNat / 16), Nat.digitChar (c.toNat % 16)]
  else if c.toNat = 8232 then "\\u2028"
  else if c.toNat = 8233 then "\\u2029"
  else String.singleton c

/-- A Go JSON string literal: quoted, characters escaped. -/
def jsonString (s : String) : String :=
  "\"" ++ String.join (s.data.map escapeChar) ++ "\""

/-- `json.Marshal` of the metadata struct: fields in declaration order
with their JSON tags. -/
def renderMeta (m : FundMeta) : String :=
  "\x7b\"fund_house\":" ++ jsonString m.FundHouse ++
  ",\"scheme_type\":" ++ jsonString m.SchemeType ++
  ",\"scheme_category\":" ++ jsonString m.SchemeCategory ++
  ",\"scheme_code\":" ++ toString m.SchemeCode ++
  ",\"scheme_name\":" ++ jsonString m.SchemeName ++ "\x7d"

/-- `json.Marshal` of one outgoing `DataPoint`. -/
def renderDataPoint (p : DataPoint) : String :=
  "\x7b\"date\":" ++ jsonString p.Date ++ ",\"nav\":" ++ jsonString p.Nav ++ "\x7d"

/-- `json.Marshal` of the `Data` slice; the Go slice is nil when the
filter kept nothing (it is only ever grown by `append`), and a nil
slice marshals as `null`. -/
def renderData : List DataPoint → String
  | [] => "null"
  | ps => "[" ++ String.intercalate "," (ps.map renderDataPoint) ++ "]"

/-- `json.Marshal` of the `Response` struct: the `period,omitempty` tag
drops the `period` key exactly when the field holds the zero value
`""`. -/
def renderResponse (r : Response) : String :=
  "\x7b\"meta\":" ++ renderMeta r.Meta ++
  (if r.Period = "" then "" else ",\"period\":" ++ jsonString r.Period) ++
  ",\"data\":" ++ renderData r.Data ++ "\x7d"

/-- An HTTP response as the client observes it: status code and exact
body bytes. -/
structure HttpResponse where
  status : Nat
  body : String
deriving DecidableEq, Repr

/-- Serialization of a handler outcome.  Error bodies come from
`json.NewEncoder(w).Encode(map[string]string{"error": message})`,
which appends a newline; the success body is written by `w.Write` on
the `json.Marshal` output, with no trailing newline. -/
def renderResult : HandlerResult → HttpResponse
  | HandlerResult.error s m => ⟨s, "\x7b\"error\":" ++ jsonString m ++ "\x7d\n"⟩
  | HandlerResult.success r => ⟨200, renderResponse r⟩

/-- `os.Getenv`: the empty string when the variable is unset. -/
def getEnv (v : Option String) : String := v.getD ""

/-- `Cron` of the Go source.  The request method is never inspected.
The 401 body is written by `http.Error`, which appends a newline to
"Unauthorized"; the 200 body by `json.NewEncoder(w).Encode` on a
one-entry map, which also appends a newline. -/
def Cron (_method : String) (authHeader : String) (cronSecret : Option String) : HttpResponse :=
  if authHeader ≠ "Bearer " ++ getEnv cronSecret then ⟨401, "Unauthorized\n"⟩
  else ⟨200, "\x7b\"data\":\"Hello, Cron!\"\x7d\n"⟩

/-- The filter the specification describes for a supplied range: keep a
point exactly when its date parses and lies within the inclusive range.
This definition follows the claim wording, to be compared with
`filterData` from the source. -/
def retainedSpec (startT endT : Nat) (it : NavItem) : Option DataPoint :=
  match parseTime it.Date with
  | none => none
  | some d => if startT ≤ d ∧ d ≤ endT then some (navToPoint it) else none

/-- The projection the code actually applies when no range was
supplied: keep a point exactly when its date parses. -/
def parsedOnly (it : NavItem) : Option DataPoint :=
  if (parseTime it.Date).isSome then some (navToPoint it) else none

theorem digitVal_le_nine {c : Char} (h : isDigitChar c = true) : digitVal c ≤ 9 := by
  unfold isDigitChar at h
  unfold digitVal
  simp only [Bool.and_eq_true, decide_eq_true_eq] at h
  omega

theorem digitChar_digitVal {c : Char} (h : isDigitChar c = true) : digitChar (digitVal c) = c := by
  unfold isDigitChar at h
  simp only [Bool.and_eq_true, decide_eq_true_eq] at h
  unfold digitChar digitVal
  have h48 : 48 + (c.toNat - 48) = c.toNat := by omega
  rw [h48, Char.ofNat_toNat]

theorem daysIn_le_31 (m y : Nat) : daysIn m y ≤ 31 := by
  unfold daysIn
  repeat' split
  all_goals omega

theorem parseDateChars_roundtrip {cs : List Char} {t : Nat}
    (h : parseDateChars cs = some t) : formatTime t = String.mk cs := by
  unfold parseDateChars at h
  split at h
  case h_2 => exact absurd h (by simp)
  case h_1 d1 d2 s1 m1 m2 s2 y1 y2 y3 y4 =>
    split at h
    case isFalse => exact absurd h (by simp)
    case isTrue hc =>
      split at h
      case isFalse => exact absurd h (by simp)
      case isTrue hr =>
        obtain ⟨hs1, hs2, hd1, hd2, hm1, hm2, hy1, hy2, hy3, hy4⟩ := hc
        injection h with h
        subst h
        subst hs1
        subst hs2
        have bd1 := digitVal_le_nine hd1
        have bd2 := digitVal_le_nine hd2
        have bm1 := digitVal_le_nine hm1
        have bm2 := digitVal_le_nine hm2
        have by1 := digitVal_le_nine hy1
        have by2 := digitVal_le_nine hy2
        have by3 := digitVal_le_nine hy3
        have by4 := digitVal_le_nine hy4
        have hdays := daysIn_le_31 (10 * digitVal m1 + digitVal m2)
          (1000 * digitVal y1 + 100 * digitVal y2 + 10 * digitVal y3 + digitVal y4)
        obtain ⟨hm_low, hm_high, hd_low, hd_high⟩ := hr
        unfold formatTime mkTime dateKey pad2 pad4
        dsimp only
        simp only [Nat.mul_div_cancel _ (show 0 < 86400 by norm_num)]
        have e1 :
            ((1000 * digitVal y1 + 100 * digitVal y2 + 10 * digitVal y3 + digitVal y4) * 10000 +
              (10 * digitVal m1 + digitVal m2) * 100 + (10 * digitVal d1 + digitVal d2)) % 100 =
            10 * digitVal d1 + digitVal d2 := by omega
        have e2 :
            ((1000 * digitVal y1 + 100 * digitVal y2 + 10 * digitVal y3 + digitVal y4) * 10000 +
              (10 * digitVal m1 + digitVal m2) * 100 + (10 * digitVal d1 + digitVal d2)) /
              100 % 100 = 10 * digitVal m1 + digitVal m2 := by omega
        have e3 :
            ((1000 * digitVal y1 + 100 * digitVal y2 + 10 * digitVal y3 + digitVal y4) * 10000 +
              (10 * digitVal m1 + digitVal m2) * 100 + (10 * digitVal d1 + digitVal d2)) /
              10000 = 1000 * digitVal y1 + 100 * digitVal y2 + 10 * digitVal y3 + digitVal y4 := by
          omega
        rw [e1, e2, e3]
        have f1 : (10 * digitVal d1 + digitVal d2) / 10 = digitVal d1 := by omega
        have f2 : (10 * digitVal d1 + digitVal d2) % 10 = digitVal d2 := by omega
        have f3 : (10 * digitVal m1 + digitVal m2) / 10 = digitVal m1 := by omega
        have f4 : (10 * digitVal m1 + digitVal m2) % 10 = digitVal m2 := by omega
        have g1 :
            (1000 * digitVal y1 + 100 * digitVal y2 + 10 * digitVal y3 + digitVal y4) / 1000 =
              digitVal y1 := by omega
        have g2 :
            (1000 * digitVal y1 + 100 * digitVal y2 + 10 * digitVal y3 + digitVal y4) /
              100 % 10 = digitVal y2 := by omega
        have g3 :
            (1000 * digitVal y1 + 100 * digitVal y2 + 10 * digitVal y3 + digitVal y4) /
              10 % 10 = digitVal y3 := by omega
        have g4 :
            (1000 * digitVal y1 + 100 * digitVal y2 + 10 * digitVal y3 + digitVal y4) % 10 =
              digitVal y4 := by omega
        rw [f1, f2, f3, f4, g1, g2, g3, g4]
        rw [digitChar_digitVal hd1, digitChar_digitVal hd2, digitChar_digitVal hm1,
          digitChar_digitVal hm2, digitChar_digitVal hy1, digitChar_digitVal hy2,
          digitChar_digitVal hy3, digitChar_digitVal hy4]
        rfl

theorem parseTime_roundtrip {s : String} {t : Nat} (h : parseTime s = some t) :
    formatTime t = s := by
  have h2 : parseDateChars s.data = some t := h
  rw [parseDateChars_roundtrip h2]

theorem filterData_zero (data : List NavItem) :
    filterData data zeroTime zeroTime = data.filterMap parsedOnly := by
  unfold filterData parsedOnly
  apply List.filterMap_congr
  intro a _
  cases hp : parseTime a.Date with
  | none => simp
  | some d => simp

theorem filterData_nonzero (data : List NavItem) (s e : Nat)
    (h : ¬(s = zeroTime ∧ e = zeroTime)) :
    filterData data s e = data.filterMap (retainedSpec s e) := by
  unfold filterData retainedSpec
  apply List.filterMap_congr
  intro a _
  cases hp : parseTime a.Date with
  | none => simp
  | some d =>
    have hiff : ((s = zeroTime ∧ e = zeroTime) ∨
        ((d = s ∨ d > s) ∧ (d = e ∨ d < e))) ↔ (s ≤ d ∧ d ≤ e) := by
      constructor
      · rintro (hz | ⟨ha, hb⟩)
        · exact absurd hz h
        · omega
      · rintro ⟨ha, hb⟩
        right
        omega
    simp only
    rw [if_congr hiff rfl rfl]

theorem filterMap_sublist_map {α β : Type} (f : α → Option β) (g : α → β) (l : List α)
    (h : ∀ a, f a = none ∨ f a = some (g a)) : (l.filterMap f).Sublist (l.map g) := by
  induction l with
  | nil => simp
  | cons a l ih =>
    rcases h a with ha | ha
    · rw [List.map_cons, List.filterMap_cons_none ha]
      exact ih.cons _
    · rw [List.map_cons, List.filterMap_cons_some ha]
      exact ih.cons₂ _

theorem validate_both_empty (now : Nat) :
    validateAndParseDates now "" "" = Except.ok (zeroTime, zeroTime) := by
  unfold validateAndParseDates
  simp

theorem validate_ok_cases {now : Nat} {startDate endDate : String} {s e : Nat}
    (h : validateAndParseDates now startDate endDate = Except.ok (s, e)) :
    (startDate ≠ "" ∧ endDate ≠ "" ∧ parseTime startDate = some s ∧
      parseTime endDate = some e ∧ e ≤ now ∧ s ≤ e) ∨
    (startDate = "" ∧ endDate = "" ∧ s = zeroTime ∧ e = zeroTime) := by
  unfold validateAndParseDates at h
  split at h
  case isTrue hne =>
    left
    refine ⟨hne.1, hne.2, ?_⟩
    unfold parseDates at h
    cases hs : parseTime startDate with
    | none =>
      rw [hs] at h
      exact absurd h (by simp)
    | some sv =>
      rw [hs] at h
      cases he : parseTime endDate with
      | none =>
        rw [he] at h
        exact absurd h (by simp)
      | some ev =>
        rw [he] at h
        simp only at h
        split at h
        case isTrue => exact absurd h (by simp)
        case isFalse h1 =>
          split at h
          case isTrue => exact absurd h (by simp)
          case isFalse h2 =>
            injection h with h
            injection h with h h'
            subst h
            subst h'
            exact ⟨rfl, rfl, by omega, by omega⟩
  case isFalse =>
    split at h
    case isTrue hee =>
      injection h with h
      injection h with h h'
      exact Or.inr ⟨hee.1, hee.2, h.symm, h'.symm⟩
    case isFalse => exact absurd h (by simp)

theorem Handler_ok {req : Request} {fund : Fund} {now s e : Nat}
    (hid : req.mutualFundID ≠ "") (hint : isValidInteger req.mutualFundID = true)
    (hval : validateAndParseDates now req.startDate req.endDate = Except.ok (s, e))
    (hmeta : fund.Meta ≠ emptyMeta) :
    Handler req (Except.ok fund) now =
      HandlerResult.success
        (createSuccessResponse fund.Meta (filterData fund.Data s e) s e) := by
  unfold Handler
  rw [if_neg hid, if_neg (by simp [hint]), hval]
  simp [hmeta]

theorem Handler_sentinel {req : Request} {fund : Fund} {now s e : Nat}
    (hid : req.mutualFundID ≠ "") (hint : isValidInteger req.mutualFundID = true)
    (hval : validateAndParseDates now req.startDate req.endDate = Except.ok (s, e))
    (hmeta : fund.Meta = emptyMeta) :
    Handler req (Except.ok fund) now = HandlerResult.error 400 "Invalid mutualFundID" := by
  unfold Handler
  rw [if_neg hid, if_neg (by simp [hint]), hval]
  simp [hmeta]

theorem Handler_val_error {req : Request} {fetch : Except String Fund} {now : Nat} {msg : String}
    (hid : req.mutualFundID ≠ "") (hint : isValidInteger req.mutualFundID = true)
    (hval : validateAndParseDates now req.startDate req.endDate = Except.error msg) :
    Handler req fetch now = HandlerResult.error 400 msg := by
  unfold Handler
  rw [if_neg hid, if_neg (by simp [hint]), hval]

theorem filterData_sublist (data : List NavItem) (s e : Nat) :
    (filterData data s e).Sublist (data.map navToPoint) := by
  unfold filterData
  apply filterMap_sublist_map
  intro a
  cases hp : parseTime a.Date with
  | none => simp
  | some d =>
    simp only
    split
    · right
      rfl
    · left
      rfl

theorem filterMap_parsedOnly_all {l : List NavItem}
    (h : ∀ it ∈ l, (parseTime it.Date).isSome = true) :
    l.filterMap parsedOnly = l.map navToPoint := by
  induction l with
  | nil => rfl
  | cons a l ih =>
    have ha : parsedOnly a = some (navToPoint a) := by
      unfold parsedOnly
      rw [if_pos (h a (List.mem_cons_self a l))]
    rw [List.map_cons, List.filterMap_cons_some ha,
      ih (fun it hit => h it (List.mem_cons_of_mem a hit))]

theorem renderResponse_no_period {r : Response} (h : r.Period = "") :
    renderResponse r =
      "\x7b\"meta\":" ++ renderMeta r.Meta ++ ",\"data\":" ++ renderData r.Data ++ "\x7d" := by
  unfold renderResponse
  rw [if_pos h]
  simp

theorem renderResponse_with_period {r : Response} (h : r.Period ≠ "") :
    renderResponse r =
      "\x7b\"meta\":" ++ renderMeta r.Meta ++ ",\"period\":" ++ jsonString r.Period ++
        ",\"data\":" ++ renderData r.Data ++ "\x7d" := by
  unfold renderResponse
  rw [if_neg h]
  simp [String.append_assoc]

theorem period_ne_empty (a b : String) : a ++ " to " ++ b ≠ "" := by
  intro h
  have hlen := congrArg String.length h
  rw [String.length_append, String.length_append] at hlen
  have h4 : String.length " to " = 4 := rfl
  have h0 : String.length "" = 0 := rfl
  rw [h4, h0] at hlen
  omega

/-- C7: a missing `mutualFundID` (the empty string, as `url.Values.Get`
reports absence) yields 400 with "mutualFundID query parameter is
required"; a present but non-integer id yields 400 with "mutualFundID
must be an integer".  Both answers are independent of the date
parameters, the clock and the upstream fetch outcome, which are
arbitrary here — so the checks are decided before date validation and
before any fetch result matters. -/
theorem C7_id_validation (req : Request) (fetch : Except String Fund) (now : Nat) :
    (req.mutualFundID = "" →
      Handler req fetch now =
        HandlerResult.error 400 "mutualFundID query parameter is required") ∧
    (req.mutualFundID ≠ "" → isValidInteger req.mutualFundID = false →
      Handler req fetch now = HandlerResult.error 400 "mutualFundID must be an integer") := by
  constructor
  · intro h
    unfold Handler
    rw [if_pos h]
  · intro h hbad
    unfold Handler
    rw [if_neg h, if_pos hbad]

/-- C7 witness: both id checks at concrete inputs with garbage dates and
a failing fetch. -/
theorem C7_id_validation_witness :
    Handler ⟨"", "01-01-2023", "zz"⟩ (Except.error "boom") 0 =
      HandlerResult.error 400 "mutualFundID query parameter is required" ∧
    Handler ⟨"12abc", "zz", ""⟩ (Except.error "boom") 0 =
      HandlerResult.error 400 "mutualFundID must be an integer" :=
  ⟨(C7_id_validation ⟨"", "01-01-2023", "zz"⟩ (Except.error "boom") 0).1 rfl,
   (C7_id_validation ⟨"12abc", "zz", ""⟩ (Except.error "boom") 0).2 (by decide) (by decide)⟩

/-- C8: the handler outcome, rendered to exact status and body bytes, is
a deterministic function of the query parameters, the upstream result
and the clock: two requests with identical parameters against the same
upstream data and time produce byte-identical responses. -/
theorem C8_deterministic (r1 r2 : Request) (u : Except String Fund) (t : Nat)
    (h1 : r1.mutualFundID = r2.mutualFundID) (h2 : r1.startDate = r2.startDate)
    (h3 : r1.endDate = r2.endDate) :
    renderResult (Handler r1 u t) = renderResult (Handler r2 u t) := by
  have hr : r1 = r2 := by
    cases r1
    cases r2
    simp_all
  rw [hr]

/-- C8 witness at a concrete request, upstream series and clock. -/
theorem C8_deterministic_witness :
    renderResult
        (Handler ⟨"100", "", ""⟩
          (Except.ok ⟨⟨"Axis", "Open", "Debt", 100, "Axis Fund"⟩, [⟨"01-02-2024", "99.0"⟩]⟩)
          (mkTime 11 10 2026)) =
      renderResult
        (Handler ⟨"100", "", ""⟩
          (Except.ok ⟨⟨"Axis", "Open", "Debt", 100, "Axis Fund"⟩, [⟨"01-02-2024", "99.0"⟩]⟩)
          (mkTime 11 10 2026)) :=
  C8_deterministic ⟨"100", "", ""⟩ ⟨"100", "", ""⟩
    (Except.ok ⟨⟨"Axis", "Open", "Debt", 100, "Axis Fund"⟩, [⟨"01-02-2024", "99.0"⟩]⟩)
    (mkTime 11 10 2026) rfl rfl rfl

/-- C9: for any HTTP method, an Authorization header differing from
"Bearer " + CRON_SECRET yields 401 with the plain-text body
"Unauthorized" (plus the newline `http.Error` appends), and a matching
header yields 200 with the JSON body \x7b"data":"Hello, Cron!"\x7d (plus
the newline `Encoder.Encode` appends). -/
theorem C9_cron_auth (method authHeader : String) (secret : Option String) :
    (authHeader ≠ "Bearer " ++ getEnv secret →
      Cron method authHeader secret = ⟨401, "Unauthorized\n"⟩) ∧
    (authHeader = "Bearer " ++ getEnv secret →
      Cron method authHeader secret = ⟨200, "\x7b\"data\":\"Hello, Cron!\"\x7d\n"⟩) := by
  constructor
  · intro h
    unfold Cron
    rw [if_pos h]
  · intro h
    unfold Cron
    rw [if_neg (by simp [h])]

/-- C9 witness: a wrong and a right bearer token at concrete values, for
two different methods. -/
theorem C9_cron_auth_witness :
    Cron "POST" "Bearer wrong" (some "s3cret") = ⟨401, "Unauthorized\n"⟩ ∧
    Cron "GET" "Bearer s3cret" (some "s3cret") = ⟨200, "\x7b\"data\":\"Hello, Cron!\"\x7d\n"⟩ :=
  ⟨(C9_cron_auth "POST" "Bearer wrong" (some "s3cret")).1 (by decide),
   (C9_cron_auth "GET" "Bearer s3cret" (some "s3cret")).2 (by decide)⟩

/-- C10: when CRON_SECRET is unset (`none`) or empty (`some ""`),
`os.Getenv` yields "" and the header "Bearer " — the prefix alone, with
its trailing space — matches "Bearer " + "", so the endpoint authorizes
the request with the 200 payload; it does not fail closed. -/
theorem C10_empty_secret (method : String) (secret : Option String)
    (h : getEnv secret = "") :
    Cron method "Bearer " secret = ⟨200, "\x7b\"data\":\"Hello, Cron!\"\x7d\n"⟩ := by
  unfold Cron
  rw [if_neg (by simp [h])]

/-- C10 witness: the unset and the empty secret, concretely. -/
theorem C10_empty_secret_witness :
    Cron "GET" "Bearer " none = ⟨200, "\x7b\"data\":\"Hello, Cron!\"\x7d\n"⟩ ∧
    Cron "POST" "Bearer " (some "") = ⟨200, "\x7b\"data\":\"Hello, Cron!\"\x7d\n"⟩ :=
  ⟨C10_empty_secret "GET" none rfl, C10_empty_secret "POST" (some "") rfl⟩

/-- C5: after id and date validation succeed and the fetch returns a
fund, metadata with every field at its zero value (all four strings
empty and scheme code 0) yields 400 "Invalid mutualFundID", and any
fund whose metadata has some non-zero field proceeds to filtering and
response assembly. -/
theorem C5_sentinel (req : Request) (fund : Fund) (now s e : Nat)
    (hid : req.mutualFundID ≠ "") (hint : isValidInteger req.mutualFundID = true)
    (hval : validateAndParseDates now req.startDate req.endDate = Except.ok (s, e)) :
    (fund.Meta.FundHouse = "" ∧ fund.Meta.SchemeType = "" ∧ fund.Meta.SchemeCategory = "" ∧
        fund.Meta.SchemeCode = 0 ∧ fund.Meta.SchemeName = "" →
      Handler req (Except.ok fund) now = HandlerResult.error 400 "Invalid mutualFundID") ∧
    (¬(fund.Meta.FundHouse = "" ∧ fund.Meta.SchemeType = "" ∧ fund.Meta.SchemeCategory = "" ∧
        fund.Meta.SchemeCode = 0 ∧ fund.Meta.SchemeName = "") →
      Handler req (Except.ok fund) now =
        HandlerResult.success
          (createSuccessResponse fund.Meta (filterData fund.Data s e) s e)) := by
  have hchar : fund.Meta = emptyMeta ↔
      (fund.Meta.FundHouse = "" ∧ fund.Meta.SchemeType = "" ∧
        fund.Meta.SchemeCategory = "" ∧ fund.Meta.SchemeCode = 0 ∧
        fund.Meta.SchemeName = "") := by
    obtain ⟨M, D⟩ := fund
    obtain ⟨a, b, c, d, f⟩ := M
    simp [emptyMeta]
  constructor
  · intro h
    exact Handler_sentinel hid hint hval (hchar.mpr h)
  · intro h
    exact Handler_ok hid hint hval (fun hh => h (hchar.mp hh))

/-- C5 witness: the all-zero sentinel rejected and a fund with a
non-empty fund house accepted, at concrete inputs. -/
theorem C5_sentinel_witness :
    Handler ⟨"3", "", ""⟩ (Except.ok ⟨⟨"", "", "", 0, ""⟩, []⟩) 5 =
      HandlerResult.error 400 "Invalid mutualFundID" ∧
    Handler ⟨"3", "", ""⟩ (Except.ok ⟨⟨"ICICI", "", "", 0, ""⟩, []⟩) 5 =
      HandlerResult.success
        (createSuccessResponse ⟨"ICICI", "", "", 0, ""⟩
          (filterData [] zeroTime zeroTime) zeroTime zeroTime) :=
  ⟨(C5_sentinel ⟨"3", "", ""⟩ ⟨⟨"", "", "", 0, ""⟩, []⟩ 5 zeroTime zeroTime
      (by decide) (by decide) rfl).1 ⟨rfl, rfl, rfl, rfl, rfl⟩,
   (C5_sentinel ⟨"3", "", ""⟩ ⟨⟨"ICICI", "", "", 0, ""⟩, []⟩ 5 zeroTime zeroTime
      (by decide) (by decide) rfl).2 (by decide)⟩

/-- C6: with a valid id and both dates parsing, an end date strictly
after the clock yields 400 "end date cannot be in the future" — and this
check wins even when start > end also holds, since it carries no
hypothesis on the bounds' order; otherwise a start after the end yields
400 "start date cannot be after end date". -/
theorem C6_range_checks (req : Request) (fetch : Except String Fund) (now s e : Nat)
    (hid : req.mutualFundID ≠ "") (hint : isValidInteger req.mutualFundID = true)
    (hs : parseTime req.startDate = some s) (he : parseTime req.endDate = some e) :
    (e > now →
      Handler req fetch now = HandlerResult.error 400 "end date cannot be in the future") ∧
    (e ≤ now → s > e →
      Handler req fetch now = HandlerResult.error 400 "start date cannot be after end date") := by
  have hsne : req.startDate ≠ "" := by
    intro hh
    rw [hh, show parseTime "" = none from rfl] at hs
    cases hs
  have hene : req.endDate ≠ "" := by
    intro hh
    rw [hh, show parseTime "" = none from rfl] at he
    cases he
  constructor
  · intro hfut
    apply Handler_val_error hid hint
    unfold validateAndParseDates parseDates
    rw [if_pos ⟨hsne, hene⟩, hs, he]
    simp only
    rw [if_pos hfut]
  · intro hle hgt
    apply Handler_val_error hid hint
    unfold validateAndParseDates parseDates
    rw [if_pos ⟨hsne, hene⟩, hs, he]
    simp only
    rw [if_neg (by omega), if_pos hgt]

/-- C6 witness: a future end date (with start also after end, showing
the precedence) and a start-after-end case, at a clock set to
11-10-2026. -/
theorem C6_range_checks_witness :
    Handler ⟨"9", "05-03-2033", "02-03-2033"⟩ (Except.error "x") (mkTime 11 10 2026) =
      HandlerResult.error 400 "end date cannot be in the future" ∧
    Handler ⟨"9", "05-01-2023", "02-01-2023"⟩ (Except.error "x") (mkTime 11 10 2026) =
      HandlerResult.error 400 "start date cannot be after end date" :=
  ⟨(C6_range_checks ⟨"9", "05-03-2033", "02-03-2033"⟩ (Except.error "x")
      (mkTime 11 10 2026) (mkTime 5 3 2033) (mkTime 2 3 2033)
      (by decide) (by decide) rfl rfl).1 (by decide),
   (C6_range_checks ⟨"9", "05-01-2023", "02-01-2023"⟩ (Except.error "x")
      (mkTime 11 10 2026) (mkTime 5 1 2023) (mkTime 2 1 2023)
      (by decide) (by decide) rfl rfl).2 (by decide) (by decide)⟩

/-- C3 counterexample: both dates supplied, the start unparseable — the
handler's message is "invalid start date format. use dd-mm-yyyy", which
differs from the claimed "invalid start/end date format. use
dd-mm-yyyy". -/
theorem C3_counterexample :
    Handler ⟨"2", "99-99-9999", "01-01-2023"⟩ (Except.error "x") 0 =
      HandlerResult.error 400 "invalid start date format. use dd-mm-yyyy" ∧
    "invalid start date format. use dd-mm-yyyy" ≠
      "invalid start/end date format. use dd-mm-yyyy" := by
  constructor
  · decide
  · decide

/-- C3 amended: with both dates supplied and at least one failing to
parse as dd-mm-yyyy, the handler returns 400 with "invalid start date
format. use dd-mm-yyyy" when the start fails, and otherwise "invalid
end date format. use dd-mm-yyyy" (the start is checked first). -/
theorem C3_amended (req : Request) (fetch : Except String Fund) (now : Nat)
    (hid : req.mutualFundID ≠ "") (hint : isValidInteger req.mutualFundID = true)
    (hsne : req.startDate ≠ "") (hene : req.endDate ≠ "")
    (hfail : parseTime req.startDate = none ∨ parseTime req.endDate = none) :
    Handler req fetch now =
      HandlerResult.error 400
        (if parseTime req.startDate = none then "invalid start date format. use dd-mm-yyyy"
         else "invalid end date format. use dd-mm-yyyy") := by
  apply Handler_val_error hid hint
  unfold validateAndParseDates parseDates
  rw [if_pos ⟨hsne, hene⟩]
  cases hps : parseTime req.startDate with
  | none => simp [hps]
  | some sv =>
    rcases hfail with hbad | hbad
    · rw [hps] at hbad
      exact absurd hbad (by simp)
    · simp [hps, hbad]

/-- C3 witness: an unparseable start date at concrete inputs. -/
theorem C3_amended_witness :
    Handler ⟨"2", "bad", "01-01-2023"⟩ (Except.error "x") 0 =
      HandlerResult.error 400
        (if parseTime "bad" = none then "invalid start date format. use dd-mm-yyyy"
         else "invalid end date format. use dd-mm-yyyy") :=
  C3_amended ⟨"2", "bad", "01-01-2023"⟩ (Except.error "x") 0
    (by decide) (by decide) (by decide) (by decide) (Or.inl rfl)

/-- C1 counterexample: with no dates supplied, a point whose date does
not parse ("not-a-date") is dropped by `filterData` even though the
claim demands the full upstream series: the response is 200 but its
data is empty rather than the one-point series. -/
theorem C1_counterexample :
    Handler ⟨"42", "", ""⟩
        (Except.ok ⟨⟨"HDFC", "Open Ended", "Index", 119063, "HDFC Index Fund"⟩,
          [⟨"not-a-date", "12.34"⟩]⟩) 0 =
      HandlerResult.success
        ⟨⟨"HDFC", "Open Ended", "Index", 119063, "HDFC Index Fund"⟩, "", []⟩ ∧
    ([] : List DataPoint) ≠ [navToPoint ⟨"not-a-date", "12.34"⟩] := by
  constructor
  · decide
  · decide

/-- C1 amended: with a valid id, no dates supplied and non-empty
metadata, the response is 200, the period key is absent from the JSON
output, and the data equals the upstream series restricted to the
points whose date parses as dd-mm-yyyy, in upstream order — the full
series exactly when every upstream date parses. -/
theorem C1_amended (req : Request) (fund : Fund) (now : Nat)
    (hid : req.mutualFundID ≠ "") (hint : isValidInteger req.mutualFundID = true)
    (hs : req.startDate = "") (he : req.endDate = "") (hmeta : fund.Meta ≠ emptyMeta) :
    Handler req (Except.ok fund) now =
      HandlerResult.success ⟨fund.Meta, "", fund.Data.filterMap parsedOnly⟩ ∧
    (renderResult (Handler req (Except.ok fund) now)).status = 200 ∧
    (renderResult (Handler req (Except.ok fund) now)).body =
      "\x7b\"meta\":" ++ renderMeta fund.Meta ++ ",\"data\":" ++
        renderData (fund.Data.filterMap parsedOnly) ++ "\x7d" ∧
    (fund.Data.filterMap parsedOnly).Sublist (fund.Data.map navToPoint) ∧
    ((∀ it ∈ fund.Data, (parseTime it.Date).isSome = true) →
      fund.Data.filterMap parsedOnly = fund.Data.map navToPoint) := by
  have hval : validateAndParseDates now req.startDate req.endDate =
      Except.ok (zeroTime, zeroTime) := by
    rw [hs, he]
    exact validate_both_empty now
  have hH := Handler_ok hid hint hval hmeta
  have hfd := filterData_zero fund.Data
  have hresp :
      createSuccessResponse fund.Meta (filterData fund.Data zeroTime zeroTime)
          zeroTime zeroTime =
        ⟨fund.Meta, "", fund.Data.filterMap parsedOnly⟩ := by
    unfold createSuccessResponse
    rw [hfd]
    simp
  rw [hH, hresp]
  refine ⟨rfl, rfl, ?_, ?_, ?_⟩
  · exact renderResponse_no_period rfl
  · have hsub := filterData_sublist fund.Data zeroTime zeroTime
    rwa [hfd] at hsub
  · intro hall
    exact filterMap_parsedOnly_all hall

/-- C1 witness: a two-point series whose dates both parse is returned in
full, in order, with the period key absent. -/
theorem C1_amended_witness :
    Handler ⟨"119063", "", ""⟩
        (Except.ok ⟨⟨"HDFC", "Open Ended", "Index", 119063, "HDFC Index Fund"⟩,
          [⟨"16-01-2023", "12.34"⟩, ⟨"15-01-2023", "12.30"⟩]⟩) 77 =
      HandlerResult.success
        ⟨⟨"HDFC", "Open Ended", "Index", 119063, "HDFC Index Fund"⟩, "",
          ([⟨"16-01-2023", "12.34"⟩, ⟨"15-01-2023", "12.30"⟩] : List NavItem).filterMap
            parsedOnly⟩ ∧
    ([⟨"16-01-2023", "12.34"⟩, ⟨"15-01-2023", "12.30"⟩] : List NavItem).filterMap parsedOnly =
      ([⟨"16-01-2023", "12.34"⟩, ⟨"15-01-2023", "12.30"⟩] : List NavItem).map navToPoint :=
  ⟨(C1_amended ⟨"119063", "", ""⟩
      ⟨⟨"HDFC", "Open Ended", "Index", 119063, "HDFC Index Fund"⟩,
        [⟨"16-01-2023", "12.34"⟩, ⟨"15-01-2023", "12.30"⟩]⟩ 77
      (by decide) (by decide) rfl rfl (by decide)).1,
   (C1_amended ⟨"119063", "", ""⟩
      ⟨⟨"HDFC", "Open Ended", "Index", 119063, "HDFC Index Fund"⟩,
        [⟨"16-01-2023", "12.34"⟩, ⟨"15-01-2023", "12.30"⟩]⟩ 77
      (by decide) (by decide) rfl rfl (by decide)).2.2.2.2 (by decide)⟩

/-- C2 counterexample: start = end = 01-01-0001 parses to Go's zero
time, so `filterData` treats the supplied, validated range as "no
range" and retains the point dated 15-01-2023, although the claim
demands retention only for dates within [01-01-0001, 01-01-0001]; the
claim's own filter (`retainedSpec`) would drop it. -/
theorem C2_counterexample :
    validateAndParseDates (mkTime 11 10 2026) "01-01-0001" "01-01-0001" =
      Except.ok (zeroTime, zeroTime) ∧
    Handler ⟨"6", "01-01-0001", "01-01-0001"⟩
        (Except.ok ⟨⟨"SBI", "Open Ended", "Equity", 125497, "SBI Fund"⟩,
          [⟨"15-01-2023", "11.5"⟩]⟩) (mkTime 11 10 2026) =
      HandlerResult.success
        ⟨⟨"SBI", "Open Ended", "Equity", 125497, "SBI Fund"⟩, "", [⟨"15-01-2023", "11.5"⟩]⟩ ∧
    retainedSpec zeroTime zeroTime ⟨"15-01-2023", "11.5"⟩ = none := by
  refine ⟨rfl, ?_, ?_⟩
  · decide
  · decide

/-- C2 amended: when both dates are supplied and validated and the
parsed bounds are not both Go's zero time 01-01-0001, the response data
equals the upstream series filtered by `retainedSpec` — a point is
retained iff its date parses as dd-mm-yyyy and lies within [start, end]
inclusive, unparseable dates being silently dropped — and the retained
points form a stable subsequence of the upstream series.  (When both
parsed bounds equal the zero time, the code retains every parseable
point instead; the counterexample forces this exclusion.) -/
theorem C2_amended (req : Request) (fund : Fund) (now s e : Nat)
    (hid : req.mutualFundID ≠ "") (hint : isValidInteger req.mutualFundID = true)
    (hval : validateAndParseDates now req.startDate req.endDate = Except.ok (s, e))
    (hmeta : fund.Meta ≠ emptyMeta)
    (hnz : ¬(s = zeroTime ∧ e = zeroTime)) :
    Handler req (Except.ok fund) now =
      HandlerResult.success
        (createSuccessResponse fund.Meta (fund.Data.filterMap (retainedSpec s e)) s e) ∧
    (fund.Data.filterMap (retainedSpec s e)).Sublist (fund.Data.map navToPoint) := by
  have hH := Handler_ok hid hint hval hmeta
  have hfd := filterData_nonzero fund.Data s e hnz
  constructor
  · rw [hH, hfd]
  · have hsub := filterData_sublist fund.Data s e
    rwa [hfd] at hsub

/-- C2 witness: the spec's own example — range 01-01-2023 to 31-01-2023
over points dated 15-01-2023 and 15-02-2023 plus one unparseable date;
only the in-range point is retained. -/
theorem C2_amended_witness :
    Handler ⟨"8", "01-01-2023", "31-01-2023"⟩
        (Except.ok ⟨⟨"UTI", "Open Ended", "Hybrid", 321, "UTI Fund"⟩,
          [⟨"15-02-2023", "20.0"⟩, ⟨"15-01-2023", "19.0"⟩, ⟨"oops", "18.0"⟩]⟩)
        (mkTime 11 10 2026) =
      HandlerResult.success
        (createSuccessResponse ⟨"UTI", "Open Ended", "Hybrid", 321, "UTI Fund"⟩
          (([⟨"15-02-2023", "20.0"⟩, ⟨"15-01-2023", "19.0"⟩, ⟨"oops", "18.0"⟩] :
              List NavItem).filterMap
            (retainedSpec (mkTime 1 1 2023) (mkTime 31 1 2023)))
          (mkTime 1 1 2023) (mkTime 31 1 2023)) ∧
    (([⟨"15-02-2023", "20.0"⟩, ⟨"15-01-2023", "19.0"⟩, ⟨"oops", "18.0"⟩] :
        List NavItem).filterMap (retainedSpec (mkTime 1 1 2023) (mkTime 31 1 2023))) =
      [⟨"15-01-2023", "19.0"⟩] :=
  ⟨(C2_amended ⟨"8", "01-01-2023", "31-01-2023"⟩
      ⟨⟨"UTI", "Open Ended", "Hybrid", 321, "UTI Fund"⟩,
        [⟨"15-02-2023", "20.0"⟩, ⟨"15-01-2023", "19.0"⟩, ⟨"oops", "18.0"⟩]⟩
      (mkTime 11 10 2026) (mkTime 1 1 2023) (mkTime 31 1 2023)
      (by decide) (by decide) rfl (by decide) (by decide)).1,
   by decide⟩

/-- C4 counterexample: both dates supplied as 01-01-0001 and validated,
yet the period field is empty and the period key is omitted from the
serialized JSON, because both parsed bounds are Go's zero time — the
claim demanded "01-01-0001 to 01-01-0001" whenever both were supplied
and validated. -/
theorem C4_counterexample :
    validateAndParseDates (mkTime 20 9 2026) "01-01-0001" "01-01-0001" =
      Except.ok (zeroTime, zeroTime) ∧
    Handler ⟨"7", "01-01-0001", "01-01-0001"⟩
        (Except.ok ⟨⟨"LIC", "Open Ended", "ELSS", 777, "LIC Fund"⟩, []⟩)
        (mkTime 20 9 2026) =
      HandlerResult.success ⟨⟨"LIC", "Open Ended", "ELSS", 777, "LIC Fund"⟩, "", []⟩ ∧
    renderResponse ⟨⟨"LIC", "Open Ended", "ELSS", 777, "LIC Fund"⟩, "", []⟩ =
      "\x7b\"meta\":\x7b\"fund_house\":\"LIC\",\"scheme_type\":\"Open Ended\",\"scheme_category\":\"ELSS\",\"scheme_code\":777,\"scheme_name\":\"LIC Fund\"\x7d,\"data\":null\x7d" ∧
    ("" : String) ≠ "01-01-0001 to 01-01-0001" := by
  refine ⟨rfl, ?_, ?_, ?_⟩
  · decide
  · decide
  · decide

/-- C4 amended: in every 200 response, the period field equals
"<start> to <end>" in dd-mm-yyyy format exactly when both bounds were
supplied, validated, and neither parsed bound is Go's zero time
01-01-0001; otherwise (dates absent, or a parsed bound equal to the
zero time) the period field is empty and the period key is omitted
entirely from the serialized JSON, not present as an empty string. -/
theorem C4_amended (req : Request) (fund : Fund) (now s e : Nat)
    (hid : req.mutualFundID ≠ "") (hint : isValidInteger req.mutualFundID = true)
    (hval : validateAndParseDates now req.startDate req.endDate = Except.ok (s, e))
    (hmeta : fund.Meta ≠ emptyMeta) :
    Handler req (Except.ok fund) now =
      HandlerResult.success
        (createSuccessResponse fund.Meta (filterData fund.Data s e) s e) ∧
    ((s ≠ zeroTime ∧ e ≠ zeroTime) →
      (createSuccessResponse fund.Meta (filterData fund.Data s e) s e).Period =
        req.startDate ++ " to " ++ req.endDate ∧
      renderResponse (createSuccessResponse fund.Meta (filterData fund.Data s e) s e) =
        "\x7b\"meta\":" ++ renderMeta fund.Meta ++ ",\"period\":" ++
          jsonString (req.startDate ++ " to " ++ req.endDate) ++ ",\"data\":" ++
          renderData (filterData fund.Data s e) ++ "\x7d") ∧
    (¬(s ≠ zeroTime ∧ e ≠ zeroTime) →
      (createSuccessResponse fund.Meta (filterData fund.Data s e) s e).Period = "" ∧
      renderResponse (createSuccessResponse fund.Meta (filterData fund.Data s e) s e) =
        "\x7b\"meta\":" ++ renderMeta fund.Meta ++ ",\"data\":" ++
          renderData (filterData fund.Data s e) ++ "\x7d") := by
  refine ⟨Handler_ok hid hint hval hmeta, ?_, ?_⟩
  · intro h
    have hP : (createSuccessResponse fund.Meta (filterData fund.Data s e) s e).Period =
        req.startDate ++ " to " ++ req.endDate := by
      rcases validate_ok_cases hval with ⟨_, _, hps, hpe, _, _⟩ | ⟨_, _, hz, _⟩
      · show (if s ≠ zeroTime ∧ e ≠ zeroTime then formatTime s ++ " to " ++ formatTime e
            else "") = req.startDate ++ " to " ++ req.endDate
        rw [if_pos h, parseTime_roundtrip hps, parseTime_roundtrip hpe]
      · exact absurd hz h.1
    refine ⟨hP, ?_⟩
    have hne : (createSuccessResponse fund.Meta (filterData fund.Data s e) s e).Period ≠ "" := by
      rw [hP]
      exact period_ne_empty req.startDate req.endDate
    rw [renderResponse_with_period hne, hP]
    rfl
  · intro h
    have hP : (createSuccessResponse fund.Meta (filterData fund.Data s e) s e).Period = "" := by
      show (if s ≠ zeroTime ∧ e ≠ zeroTime then formatTime s ++ " to " ++ formatTime e
          else "") = ""
      rw [if_neg h]
    refine ⟨hP, ?_⟩
    rw [renderResponse_no_period hP]
    rfl

/-- C4 witness: range 01-01-2023 to 31-01-2023 — the period field reads
"01-01-2023 to 31-01-2023" in the 200 response. -/
theorem C4_amended_witness :
    Handler ⟨"11", "01-01-2023", "31-01-2023"⟩
        (Except.ok ⟨⟨"Kotak", "Open Ended", "Gilt", 55, "Kotak Fund"⟩,
          [⟨"15-01-2023", "30.0"⟩]⟩) (mkTime 20 9 2026) =
      HandlerResult.success
        (createSuccessResponse ⟨"Kotak", "Open Ended", "Gilt", 55, "Kotak Fund"⟩
          (filterData [⟨"15-01-2023", "30.0"⟩] (mkTime 1 1 2023) (mkTime 31 1 2023))
          (mkTime 1 1 2023) (mkTime 31 1 2023)) ∧
    (createSuccessResponse ⟨"Kotak", "Open Ended", "Gilt", 55, "Kotak Fund"⟩
        (filterData [⟨"15-01-2023", "30.0"⟩] (mkTime 1 1 2023) (mkTime 31 1 2023))
        (mkTime 1 1 2023) (mkTime 31 1 2023)).Period =
      "01-01-2023" ++ " to " ++ "31-01-2023" :=
  ⟨(C4_amended ⟨"11", "01-01-2023", "31-01-2023"⟩
      ⟨⟨"Kotak", "Open Ended", "Gilt", 55, "Kotak Fund"⟩, [⟨"15-01-2023", "30.0"⟩]⟩
      (mkTime 20 9 2026) (mkTime 1 1 2023) (mkTime 31 1 2023)
      (by decide) (by decide) rfl (by decide)).1,
   ((C4_amended ⟨"11", "01-01-2023", "31-01-2023"⟩
      ⟨⟨"Kotak", "Open Ended", "Gilt", 55, "Kotak Fund"⟩, [⟨"15-01-2023", "30.0"⟩]⟩
      (mkTime 20 9 2026) (mkTime 1 1 2023) (mkTime 31 1 2023)
      (by decide) (by decide) rfl (by decide)).2.1 ⟨by decide, by decide⟩).1⟩
